import Mathlib

/-
Shallow embedding of the credential lifecycle and auth-aware dispatch core of
the gtasks MCP server (`src/index.ts` and the task listing module), together
with theorems checking the specification's testable properties against it.

JavaScript values flowing through the modelled code are represented by the
first-order type `JSVal`; `absent` marks an object key that is not present on
an object, `undef` a key bound to `undefined`.  Arrays and nested objects do
not occur in the modelled data paths (credential fields, error fields,
primitive argument values) and are outside the embedding.
-/

namespace GTasksSpec

/-- JavaScript value appearing in the modelled code.  `absent` means the
object key is missing; reading such a key evaluates to `undefined`. -/
inductive JSVal where
  | absent
  | undef
  | nullV
  | boolV (b : Bool)
  | numV (n : Int)
  | strV (s : String)
deriving DecidableEq

/-- Reading a field as a value: a missing key evaluates to `undefined`. -/
def valueOf : JSVal → JSVal
  | JSVal.absent => JSVal.undef
  | v => v

/-- JavaScript truthiness of the modelled values. -/
def truthy : JSVal → Bool
  | JSVal.boolV b => b
  | JSVal.numV n => n != 0
  | JSVal.strV s => s != ""
  | _ => false

/-- JavaScript `a || b`: the first operand when truthy, otherwise the second,
both read as values. -/
def jsOr (a b : JSVal) : JSVal :=
  if truthy a then valueOf a else valueOf b

/-- JavaScript strict equality `===` on the modelled values (operands are
field reads, so a missing key compares like `undefined`). -/
def jsStrictEq (a b : JSVal) : Bool :=
  match valueOf a, valueOf b with
  | JSVal.undef, JSVal.undef => true
  | JSVal.nullV, JSVal.nullV => true
  | JSVal.boolV x, JSVal.boolV y => x == y
  | JSVal.numV x, JSVal.numV y => x == y
  | JSVal.strV x, JSVal.strV y => x == y
  | _, _ => false

/-- Model of `String.prototype.toLowerCase` (ASCII-faithful, character by
character, which covers every string the classifier compares against). -/
def jsToLower (s : String) : String :=
  String.mk (s.data.map Char.toLower)

/-- Contiguous-sublist check used to model `String.prototype.includes`. -/
def containsChars (pat : List Char) : List Char → Bool
  | [] => pat.isEmpty
  | c :: rest => pat.isPrefixOf (c :: rest) || containsChars pat rest

/-- Model of `s.includes(pat)` for the non-empty literal patterns the source
checks for. -/
def containsSub (s pat : String) : Bool :=
  containsChars pat.data s.data

/-- The persisted OAuth credential record (`Auth.Credentials`):
`{access_token?, refresh_token?, scope?, token_type?, expiry_date?, id_token?}`,
every field optional. -/
structure Credential where
  access_token : JSVal
  refresh_token : JSVal
  scope : JSVal
  token_type : JSVal
  expiry_date : JSVal
  id_token : JSVal
deriving DecidableEq

/-- The empty object `{}` used when nothing is stored. -/
def emptyCredential : Credential :=
  ⟨JSVal.absent, JSVal.absent, JSVal.absent, JSVal.absent, JSVal.absent, JSVal.absent⟩

/-- State of the credential file in durable storage. -/
inductive FileState where
  | missing
  | corrupt
  | valid (c : Credential)
deriving DecidableEq

/-- `readStoredCredentials` (`src/index.ts:348-359`): a missing file yields
`null`; a file that exists but fails `JSON.parse` is caught, logged with
`console.error`, and yields `null`.  The function is total: it never throws
to its caller, and `none` is the only failure signal. -/
def readStoredCredentials : FileState → Option Credential
  | FileState.missing => none
  | FileState.corrupt => none
  | FileState.valid c => some c

/-- Object spread per field: in `{...oldObj, ...newObj}` a key present on the
second object (even one bound to `undefined`) overrides the first. -/
def spreadField (oldV newV : JSVal) : JSVal :=
  if newV = JSVal.absent then oldV else newV

/-- Fieldwise `{...oldC, ...newC}` for credential records. -/
def spreadCred (oldC newC : Credential) : Credential :=
  { access_token := spreadField oldC.access_token newC.access_token,
    refresh_token := spreadField oldC.refresh_token newC.refresh_token,
    scope := spreadField oldC.scope newC.scope,
    token_type := spreadField oldC.token_type newC.token_type,
    expiry_date := spreadField oldC.expiry_date newC.expiry_date,
    id_token := spreadField oldC.id_token newC.id_token }

/-- `saveCredentials` (`src/index.ts:361-373`): read the stored record (or use
`{}` when the file is missing or unreadable), spread the candidate over it,
and force `refresh_token` to
`credentials.refresh_token || existingCredentials.refresh_token`, so a falsy
candidate token keeps the stored one.  The merged record is written back to
the file as JSON and returned. -/
def saveCredentials (fileState : FileState) (credentials : Credential) : Credential :=
  let existingCredentials := (readStoredCredentials fileState).getD emptyCredential
  { spreadCred existingCredentials credentials with
    refresh_token := jsOr credentials.refresh_token existingCredentials.refresh_token }

/-- A thrown error value carrying the fields `isAuthError` inspects: `code`,
`status`, `message`, `response?.status` and `response?.data?.error?.code`. -/
structure JSError where
  code : JSVal
  status : JSVal
  message : Option String
  respStatus : JSVal
  respDataErrorCode : JSVal
deriving DecidableEq

/-- The expression `error.message?.toLowerCase() || ""`. -/
def msgLower : Option String → String
  | none => ""
  | some m => jsToLower m

/-- `isAuthError` (`src/index.ts:403-427`).  Thrown errors are always truthy
objects, so the leading `if (!error) return false` guard never fires in the
modelled paths. -/
def isAuthError (error : JSError) : Bool :=
  let status := jsOr (jsOr error.code error.status) error.respStatus
  if jsStrictEq status (JSVal.numV 401) || jsStrictEq status (JSVal.numV 403) then true
  else
    let message := msgLower error.message
    if containsSub message "invalid_grant" || containsSub message "invalid_credentials" ||
        containsSub message "unauthorized" || containsSub message "authentication" ||
        containsSub message "invalid token" then true
    else
      let errorCode := jsOr error.code error.respDataErrorCode
      if jsStrictEq errorCode (JSVal.strV "UNAUTHENTICATED") ||
          jsStrictEq errorCode (JSVal.strV "PERMISSION_DENIED") then true
      else false

/-- Environment of one `refreshAccessTokenIfPossible` run: the in-memory
credential on the OAuth client, the credential file as `saveCredentials`
would read it, and the outcome `oauth.refreshAccessToken()` would produce
(`Except.ok` carries `refreshed.credentials`). -/
structure RefreshEnv where
  current : Credential
  stored : FileState
  refreshCall : Except JSError Credential

/-- Observable outcome of `refreshAccessTokenIfPossible`:
no token so no attempt, a persisted merge after a successful refresh call, or
a logged failure of the refresh call. -/
inductive RefreshOutcome where
  | noToken
  | refreshedOk (saved : Credential)
  | refreshFailed (e : JSError)
deriving DecidableEq

/-- The boolean the function returns for each outcome. -/
def RefreshOutcome.returnValue : RefreshOutcome → Bool
  | RefreshOutcome.noToken => false
  | RefreshOutcome.refreshedOk _ => true
  | RefreshOutcome.refreshFailed _ => false

/-- `refreshAccessTokenIfPossible` (`src/index.ts:429-454`): with a falsy
`oauth.credentials?.refresh_token` it returns `false` at once, making no
refresh call.  Otherwise it awaits the refresh call; on success it saves
`{...oauth.credentials, ...refreshed.credentials, refresh_token: refreshToken}`
through `saveCredentials`, adopts the merge, and returns `true`; a failing
call is caught, logged with `console.error`, and yields `false`. -/
def refreshAccessTokenIfPossible (env : RefreshEnv) : RefreshOutcome :=
  let refreshToken := valueOf env.current.refresh_token
  if truthy refreshToken then
    match env.refreshCall with
    | Except.error e => RefreshOutcome.refreshFailed e
    | Except.ok refreshed =>
      let candidate :=
        { spreadCred env.current refreshed with refresh_token := refreshToken }
      RefreshOutcome.refreshedOk (saveCredentials env.stored candidate)
  else RefreshOutcome.noToken

/-- `withAuthRetry` (`src/index.ts:490-513`), instrumented with counters.
`op i` is the outcome of the `(i+1)`-th invocation of the wrapped `fn`;
`repair` is the outcome of the repair path taken on an auth failure with
budget left (the refresh attempt, falling back to the full interactive
authorization flow plus credential reload, either of which adopts new
credentials; an exception escaping that path propagates).  The source
re-enters itself with the explicit budget `0`; since the only budgets that
occur are the default `1` and `0`, the structural decrement to `r` below
coincides with that literal `0` at every reachable call.  The result is
`(outcome, number of invocations of fn, number of repair-path runs)`. -/
def withAuthRetry {α : Type} (op : Nat → Except JSError α) (repair : Except JSError Unit)
    (retryCount callIdx : Nat) : Except JSError α × Nat × Nat :=
  match op callIdx with
  | Except.ok v => (Except.ok v, 1, 0)
  | Except.error e =>
    if isAuthError e then
      match retryCount with
      | 0 => (Except.error e, 1, 0)
      | Nat.succ r =>
        match repair with
        | Except.error re => (Except.error re, 1, 1)
        | Except.ok _ =>
          let rest := withAuthRetry op repair r (callIdx + 1)
          (rest.1, rest.2.1 + 1, rest.2.2 + 1)
    else (Except.error e, 1, 0)

/-- One entry of the endpoint table (`TaskEndpointDefinition`,
`src/index.ts:38-47`).  The `execute` closure is the remote Google Tasks
capability; a dispatch that reaches it is represented by the
`DispatchResult.executed` constructor below. -/
structure EndpointDef where
  description : String
  requiredParams : List String
  usesBody : Bool
deriving DecidableEq

/-- `toToolName` (`src/index.ts:49`): `endpointName.replace(/\./g, "-")`,
a global replacement of each dot character by a dash. -/
def toToolName (endpointName : String) : String :=
  String.mk (endpointName.data.map (fun c => if c == '.' then '-' else c))

/-- `taskApiEndpoints` (`src/index.ts:51-134`) as an association list in
declaration order; an absent `requiredParams` is the empty list and an absent
`usesBody` is `false`. -/
def taskApiEndpoints : List (String × EndpointDef) :=
  [("tasklists.list",
    { description := "List all task lists (tasks.tasklists.list)",
      requiredParams := [], usesBody := false }),
   ("tasklists.get",
    { description := "Get a single task list by id (tasks.tasklists.get)",
      requiredParams := ["tasklist"], usesBody := false }),
   ("tasklists.insert",
    { description := "Create a task list (tasks.tasklists.insert)",
      requiredParams := [], usesBody := true }),
   ("tasklists.update",
    { description := "Update a task list (tasks.tasklists.update)",
      requiredParams := ["tasklist"], usesBody := true }),
   ("tasklists.patch",
    { description := "Patch a task list (tasks.tasklists.patch)",
      requiredParams := ["tasklist"], usesBody := true }),
   ("tasklists.delete",
    { description := "Delete a task list (tasks.tasklists.delete)",
      requiredParams := ["tasklist"], usesBody := false }),
   ("tasks.list",
    { description := "List tasks in a task list (tasks.tasks.list). Requires params.tasklist.",
      requiredParams := ["tasklist"], usesBody := false }),
   ("tasks.get",
    { description := "Get a task by id (tasks.tasks.get)",
      requiredParams := ["tasklist", "task"], usesBody := false }),
   ("tasks.insert",
    { description := "Create a task (tasks.tasks.insert)",
      requiredParams := ["tasklist"], usesBody := true }),
   ("tasks.update",
    { description := "Update a task (tasks.tasks.update)",
      requiredParams := ["tasklist", "task"], usesBody := true }),
   ("tasks.patch",
    { description := "Patch a task (tasks.tasks.patch)",
      requiredParams := ["tasklist", "task"], usesBody := true }),
   ("tasks.delete",
    { description := "Delete a task (tasks.tasks.delete)",
      requiredParams := ["tasklist", "task"], usesBody := false }),
   ("tasks.move",
    { description := "Move a task within a list (tasks.tasks.move). Requires tasklist and task; supports parent/previous.",
      requiredParams := ["tasklist", "task"], usesBody := false }),
   ("tasks.clear",
    { description := "Clear completed tasks from a list (tasks.tasks.clear)",
      requiredParams := ["tasklist"], usesBody := false })]

/-- The declared endpoint names, in declaration order
(`Object.keys(taskApiEndpoints)`). -/
def endpointKeys : List String :=
  taskApiEndpoints.map (fun kv => kv.1)

/-- `toolNameToEndpoint` (`src/index.ts:136-141`): the reverse lookup object
built by inserting `toToolName(endpointName) -> endpointName` for every key.
The normalized names are pairwise distinct (proved below), so association-list
lookup agrees with the object built by the source's `reduce`. -/
def toolNameToEndpoint : List (String × String) :=
  endpointKeys.map (fun k => (toToolName k, k))

/-- Result of the `CallToolRequestSchema` handler (`src/index.ts:248-302`)
up to the remote call: the synthetic reauthorize path, the thrown
`Error("Tool not found")`, the thrown missing-parameter validation error
(`Missing required parameter "<param>" for <tool>`), or a call into the
remote capability with the split params and body. -/
inductive DispatchResult where
  | reauthorized
  | toolNotFound
  | missingParam (param : String) (tool : String)
  | executed (endpointName : String) (params : List (String × JSVal)) (body : Option JSVal)
deriving DecidableEq

/-- The validation test `params[p] === undefined || params[p] === null`,
where an absent key reads as `undefined`. -/
def isMissingIn (params : List (String × JSVal)) (p : String) : Bool :=
  let v := (List.lookup p params).getD JSVal.absent
  jsStrictEq v JSVal.undef || jsStrictEq v JSVal.nullV

/-- The `CallToolRequestSchema` handler (`src/index.ts:248-283`) up to the
remote call.  `"reauthorize"` is handled first and unconditionally; an
unresolved name throws `Error("Tool not found")`; then the arguments are
split into `body` (kept only for `usesBody` endpoints, where the source
defaults a falsy body to `{}`) and the remaining params (`delete params.body`),
and each required parameter is checked in order, throwing on the first
missing one before any remote call. -/
def dispatch (name : String) (args : List (String × JSVal)) : DispatchResult :=
  if name = "reauthorize" then DispatchResult.reauthorized
  else
    match List.lookup name toolNameToEndpoint with
    | none => DispatchResult.toolNotFound
    | some endpointName =>
      match List.lookup endpointName taskApiEndpoints with
      | none => DispatchResult.toolNotFound
      | some endpoint =>
        let body := if endpoint.usesBody then List.lookup "body" args else none
        let params := args.filter (fun kv => kv.1 ≠ "body")
        match endpoint.requiredParams.find? (fun p => isMissingIn params p) with
        | some p => DispatchResult.missingParam p name
        | none => DispatchResult.executed endpointName params body

/-- A task object as a string-keyed record, the shape `matchesFilters` reads
fields from (`Schema$Task`). -/
abbrev TaskObj := List (String × JSVal)

/-- Reading `taskRecord[field]`. -/
def taskGet (task : TaskObj) (field : String) : JSVal :=
  (List.lookup field task).getD JSVal.absent

/-- `TaskActions.normalizeForComparison` (`Tasks` module): `undefined` and
`null` become `""`, strings are lower-cased, numbers and booleans are
stringified then lower-cased.  The source additionally stringifies arrays and
nested objects, value forms outside this embedding. -/
def normalizeForComparison (v : JSVal) : String :=
  match v with
  | JSVal.absent => ""
  | JSVal.undef => ""
  | JSVal.nullV => ""
  | JSVal.strV s => jsToLower s
  | JSVal.numV n => jsToLower (toString n)
  | JSVal.boolV b => jsToLower (toString b)

/-- `TaskActions.matchesStatus`: a falsy `status` filter accepts everything,
otherwise `task.status === status`. -/
def matchesStatus (task : TaskObj) (status : JSVal) : Bool :=
  if truthy status then jsStrictEq (taskGet task "status") status else true

/-- `TaskActions.matchesFilters`: with no filters everything matches;
otherwise every filter field must be present (not `undefined`) on the task
and normalize to the same string as the expected value. -/
def matchesFilters (task : TaskObj) (filters : Option (List (String × JSVal))) : Bool :=
  match filters with
  | none => true
  | some fs =>
    fs.all (fun kv =>
      let actualValue := taskGet task kv.1
      if valueOf actualValue = JSVal.undef then false
      else normalizeForComparison actualValue == normalizeForComparison kv.2)

/-- The payload of one `tasks.tasks.list` response: `data.items` (possibly
absent, defaulted to `[]`) and `data.nextPageToken`. -/
structure TasksListData where
  items : Option (List TaskObj)
  nextPageToken : JSVal

/-- One task list in a bulk cross-list read: its `id` and the outcome the
wrapped `tasks.tasks.list` call for it would produce. -/
structure SubListFetch where
  id : JSVal
  fetched : Except JSError TasksListData

/-- The cross-list loop of `TaskActions._list` (Tasks module): iterate the
task lists sequentially; lists with a falsy `id` are skipped; each remote
failure is caught, logged with `console.error`, and skipped; items of each
successful fetch are filtered by status and filters and accumulated. -/
def listAcrossLists (taskLists : List SubListFetch) (status : JSVal)
    (filters : Option (List (String × JSVal))) : List TaskObj :=
  taskLists.foldl
    (fun allTasks taskList =>
      if truthy taskList.id then
        match taskList.fetched with
        | Except.ok d =>
          allTasks ++ (d.items.getD []).filter
            (fun t => matchesStatus t status && matchesFilters t filters)
        | Except.error _ => allTasks
      else allTasks)
    []

/-- The single-list branch of `TaskActions._list`: a remote failure is caught,
logged, and turned into `[]`. -/
def listSingleList (sl : SubListFetch) (status : JSVal)
    (filters : Option (List (String × JSVal))) : List TaskObj :=
  match sl.fetched with
  | Except.ok d =>
    (d.items.getD []).filter (fun t => matchesStatus t status && matchesFilters t filters)
  | Except.error _ => []

/-- The cross-list loop of `TaskResources.list` (Tasks module, resource
listing): iterate all task lists sequentially with NO try/catch around the
per-list remote call, so the first failing fetch aborts the whole operation
with that error; on success items are accumulated and a truthy
`nextPageToken` replaces the current one (initially `null`). -/
def resourcesList (taskLists : List SubListFetch) :
    Except JSError (List TaskObj × JSVal) :=
  taskLists.foldl
    (fun acc taskList =>
      match acc with
      | Except.error e => Except.error e
      | Except.ok st =>
        match taskList.fetched with
        | Except.error e => Except.error e
        | Except.ok d =>
          Except.ok (st.1 ++ d.items.getD [],
            if truthy d.nextPageToken then d.nextPageToken else st.2))
    (Except.ok ([], JSVal.nullV))

theorem truthy_valueOf (v : JSVal) : truthy (valueOf v) = truthy v := by
  cases v <;> rfl

theorem valueOf_valueOf (v : JSVal) : valueOf (valueOf v) = valueOf v := by
  cases v <;> rfl

theorem jsOr_of_truthy (a b : JSVal) (h : truthy a = true) : jsOr a b = valueOf a := by
  simp [jsOr, h]

theorem jsOr_of_falsy (a b : JSVal) (h : truthy a = false) : jsOr a b = valueOf b := by
  simp [jsOr, h]

theorem jsStrictEq_valueOf_left (a b : JSVal) : jsStrictEq (valueOf a) b = jsStrictEq a b := by
  cases a <;> rfl

theorem jsStrictEq_strV_ne (x : JSVal) (s : String) (h : x ≠ JSVal.strV s) :
    jsStrictEq x (JSVal.strV s) = false := by
  cases x with
  | strV t =>
    have ht : t ≠ s := fun hh => h (by rw [hh])
    simp [jsStrictEq, valueOf, ht]
  | _ => rfl

/-- C7: `load()` of the credential store never raises to its caller (the
embedding is a total function into `Option`): a missing credential file
yields `none`, a file that exists but is corrupt/unparsable is logged and
yields `none`, and a parsable file yields its record, so absence is the only
failure signal. -/
theorem readStoredCredentials_fails_soft :
    readStoredCredentials FileState.missing = none ∧
    readStoredCredentials FileState.corrupt = none ∧
    ∀ c : Credential, readStoredCredentials (FileState.valid c) = some c :=
  ⟨rfl, rfl, fun _ => rfl⟩

/-- C9: over the closed key set of the endpoint table, normalizing each
declared dotted endpoint name with `toToolName` and looking the result up in
`toolNameToEndpoint` returns exactly that endpoint name, and no two declared
endpoints collide after normalization. -/
theorem toToolName_roundtrip :
    (∀ k ∈ endpointKeys, List.lookup (toToolName k) toolNameToEndpoint = some k) ∧
    (endpointKeys.map toToolName).Nodup := by
  decide

/-- C1 counterexample: the stored record has `refresh_token` `"r1"` and the
candidate carries the present (but empty, hence falsy) `refresh_token` `""`;
the claim requires the result's `refresh_token` to be the candidate's `""`,
but `saveCredentials` keeps `"r1"`. -/
theorem saveCredentials_claim_false :
    (⟨JSVal.strV "a2", JSVal.strV "", JSVal.absent, JSVal.absent, JSVal.absent,
        JSVal.absent⟩ : Credential).refresh_token = JSVal.strV "" ∧
    (saveCredentials
        (FileState.valid ⟨JSVal.strV "a1", JSVal.strV "r1", JSVal.absent, JSVal.absent,
          JSVal.absent, JSVal.absent⟩)
        ⟨JSVal.strV "a2", JSVal.strV "", JSVal.absent, JSVal.absent, JSVal.absent,
          JSVal.absent⟩).refresh_token = JSVal.strV "r1" ∧
    JSVal.strV "r1" ≠ JSVal.strV "" :=
  ⟨rfl, by decide, by decide⟩

/-- C1 (amended): `save` merges the candidate over the stored record (or `{}`
when storage is absent/unreadable); every field present on the candidate
overrides the stored one and every absent field keeps it, except
`refresh_token`, which is the candidate's exactly when the candidate's value
is truthy (present and neither null, undefined nor empty) and otherwise falls
back to the stored one. -/
theorem saveCredentials_merge (fs : FileState) (cand oldCred : Credential)
    (hold : readStoredCredentials fs = some oldCred) :
    (truthy cand.refresh_token = true →
      (saveCredentials fs cand).refresh_token = valueOf cand.refresh_token) ∧
    (truthy cand.refresh_token = false →
      (saveCredentials fs cand).refresh_token = valueOf oldCred.refresh_token) ∧
    (cand.access_token ≠ JSVal.absent →
      (saveCredentials fs cand).access_token = cand.access_token) ∧
    (cand.access_token = JSVal.absent →
      (saveCredentials fs cand).access_token = oldCred.access_token) ∧
    (cand.scope ≠ JSVal.absent → (saveCredentials fs cand).scope = cand.scope) ∧
    (cand.scope = JSVal.absent → (saveCredentials fs cand).scope = oldCred.scope) ∧
    (cand.token_type ≠ JSVal.absent →
      (saveCredentials fs cand).token_type = cand.token_type) ∧
    (cand.token_type = JSVal.absent →
      (saveCredentials fs cand).token_type = oldCred.token_type) ∧
    (cand.expiry_date ≠ JSVal.absent →
      (saveCredentials fs cand).expiry_date = cand.expiry_date) ∧
    (cand.expiry_date = JSVal.absent →
      (saveCredentials fs cand).expiry_date = oldCred.expiry_date) ∧
    (cand.id_token ≠ JSVal.absent → (saveCredentials fs cand).id_token = cand.id_token) ∧
    (cand.id_token = JSVal.absent → (saveCredentials fs cand).id_token = oldCred.id_token) := by
  refine ⟨fun h => ?_, fun h => ?_, fun h => ?_, fun h => ?_, fun h => ?_, fun h => ?_,
    fun h => ?_, fun h => ?_, fun h => ?_, fun h => ?_, fun h => ?_, fun h => ?_⟩ <;>
    simp [saveCredentials, hold, spreadCred, spreadField, jsOr, h]

/-- C1 witness (Scenario C shape): after a first save stored
`{access_token: "a1", refresh_token: "r1"}`, saving `{access_token: "a2"}`
with no refresh token yields `refresh_token "r1"` and `access_token "a2"`. -/
theorem saveCredentials_merge_witness :
    (saveCredentials
        (FileState.valid ⟨JSVal.strV "a1", JSVal.strV "r1", JSVal.absent, JSVal.absent,
          JSVal.absent, JSVal.absent⟩)
        ⟨JSVal.strV "a2", JSVal.absent, JSVal.absent, JSVal.absent, JSVal.absent,
          JSVal.absent⟩).refresh_token = JSVal.strV "r1" ∧
    (saveCredentials
        (FileState.valid ⟨JSVal.strV "a1", JSVal.strV "r1", JSVal.absent, JSVal.absent,
          JSVal.absent, JSVal.absent⟩)
        ⟨JSVal.strV "a2", JSVal.absent, JSVal.absent, JSVal.absent, JSVal.absent,
          JSVal.absent⟩).access_token = JSVal.strV "a2" := by
  have h := saveCredentials_merge
    (FileState.valid ⟨JSVal.strV "a1", JSVal.strV "r1", JSVal.absent, JSVal.absent,
      JSVal.absent, JSVal.absent⟩)
    ⟨JSVal.strV "a2", JSVal.absent, JSVal.absent, JSVal.absent, JSVal.absent, JSVal.absent⟩
    ⟨JSVal.strV "a1", JSVal.strV "r1", JSVal.absent, JSVal.absent, JSVal.absent, JSVal.absent⟩
    rfl
  exact ⟨h.2.1 rfl, h.2.2.1 (by decide)⟩

/-- C10: `save` treats every falsy candidate `refresh_token` — the empty
string and null, not only an absent one — as missing: the stored token `R`
survives the merge. -/
theorem saveCredentials_falsy_refresh (fs : FileState) (cand oldCred : Credential)
    (r : String) (hold : readStoredCredentials fs = some oldCred)
    (holdR : oldCred.refresh_token = JSVal.strV r)
    (hcand : cand.refresh_token = JSVal.strV "" ∨ cand.refresh_token = JSVal.nullV) :
    (saveCredentials fs cand).refresh_token = JSVal.strV r := by
  rcases hcand with h | h <;>
    simp [saveCredentials, hold, holdR, jsOr, truthy, valueOf, h]

/-- C10 witness: a concrete empty-string candidate keeps the stored token. -/
theorem saveCredentials_falsy_refresh_witness :
    (saveCredentials
        (FileState.valid ⟨JSVal.strV "a1", JSVal.strV "r1", JSVal.absent, JSVal.absent,
          JSVal.absent, JSVal.absent⟩)
        ⟨JSVal.strV "a2", JSVal.strV "", JSVal.absent, JSVal.absent, JSVal.absent,
          JSVal.absent⟩).refresh_token = JSVal.strV "r1" :=
  saveCredentials_falsy_refresh
    (FileState.valid ⟨JSVal.strV "a1", JSVal.strV "r1", JSVal.absent, JSVal.absent,
      JSVal.absent, JSVal.absent⟩)
    ⟨JSVal.strV "a2", JSVal.strV "", JSVal.absent, JSVal.absent, JSVal.absent, JSVal.absent⟩
    ⟨JSVal.strV "a1", JSVal.strV "r1", JSVal.absent, JSVal.absent, JSVal.absent, JSVal.absent⟩
    "r1" rfl rfl (Or.inl rfl)

/-- C3 counterexample: the claim says a 401 found on the error's `status`
field classifies as an auth error, but with a truthy non-auth `code` of 500
the expression `error.code || error.status || error.response?.status` never
reads `status`, and the classifier returns non-auth. -/
theorem isAuthError_claim_false :
    (⟨JSVal.numV 500, JSVal.numV 401, some "boom", JSVal.absent,
        JSVal.absent⟩ : JSError).status = JSVal.numV 401 ∧
    isAuthError
      ⟨JSVal.numV 500, JSVal.numV 401, some "boom", JSVal.absent, JSVal.absent⟩ = false :=
  ⟨rfl, by decide⟩

/-- C3 (amended): the classifier fires on 401/403 when it is the FIRST truthy
value among `code`, `status` and `response.status` (a truthy earlier field
shadows the later ones); a message containing `invalid_grant` in any case
always classifies as auth; and a status-500 error (absent `code`) with a
message containing none of the listed substrings and no listed structured
code classifies as non-auth. -/
theorem isAuthError_classification :
    (∀ e : JSError,
      (e.code = JSVal.numV 401 ∨ e.code = JSVal.numV 403 ∨
        (truthy e.code = false ∧ (e.status = JSVal.numV 401 ∨ e.status = JSVal.numV 403)) ∨
        (truthy e.code = false ∧ truthy e.status = false ∧
          (e.respStatus = JSVal.numV 401 ∨ e.respStatus = JSVal.numV 403))) →
      isAuthError e = true) ∧
    (∀ (e : JSError) (m : String), e.message = some m →
      containsSub (jsToLower m) "invalid_grant" = true → isAuthError e = true) ∧
    (∀ e : JSError, e.code = JSVal.absent → e.status = JSVal.numV 500 →
      containsSub (msgLower e.message) "invalid_grant" = false →
      containsSub (msgLower e.message) "invalid_credentials" = false →
      containsSub (msgLower e.message) "unauthorized" = false →
      containsSub (msgLower e.message) "authentication" = false →
      containsSub (msgLower e.message) "invalid token" = false →
      e.respDataErrorCode ≠ JSVal.strV "UNAUTHENTICATED" →
      e.respDataErrorCode ≠ JSVal.strV "PERMISSION_DENIED" →
      isAuthError e = false) := by
  refine ⟨?_, ?_, ?_⟩
  · intro e h
    have hS : jsOr (jsOr e.code e.status) e.respStatus = JSVal.numV 401 ∨
        jsOr (jsOr e.code e.status) e.respStatus = JSVal.numV 403 := by
      rcases h with h | h | ⟨hc, h | h⟩ | ⟨hc, hs, h | h⟩
      · left
        have h1 : jsOr e.code e.status = JSVal.numV 401 := by
          rw [jsOr_of_truthy _ _ (by rw [h]; decide), h]; rfl
        rw [h1, jsOr_of_truthy _ _ (by decide)]; rfl
      · right
        have h1 : jsOr e.code e.status = JSVal.numV 403 := by
          rw [jsOr_of_truthy _ _ (by rw [h]; decide), h]; rfl
        rw [h1, jsOr_of_truthy _ _ (by decide)]; rfl
      · left
        have h1 : jsOr e.code e.status = JSVal.numV 401 := by
          rw [jsOr_of_falsy _ _ hc, h]; rfl
        rw [h1, jsOr_of_truthy _ _ (by decide)]; rfl
      · right
        have h1 : jsOr e.code e.status = JSVal.numV 403 := by
          rw [jsOr_of_falsy _ _ hc, h]; rfl
        rw [h1, jsOr_of_truthy _ _ (by decide)]; rfl
      · left
        have h1 : jsOr e.code e.status = valueOf e.status := jsOr_of_falsy _ _ hc
        rw [h1, jsOr_of_falsy _ _ (by rw [truthy_valueOf]; exact hs), h]; rfl
      · right
        have h1 : jsOr e.code e.status = valueOf e.status := jsOr_of_falsy _ _ hc
        rw [h1, jsOr_of_falsy _ _ (by rw [truthy_valueOf]; exact hs), h]; rfl
    rcases hS with h | h <;> simp [isAuthError, h, jsStrictEq, valueOf]
  · intro e m hm hsub
    simp [isAuthError, hm, msgLower, hsub]
  · intro e hcode hstat h1 h2 h3 h4 h5 hr1 hr2
    have hS : jsOr (jsOr e.code e.status) e.respStatus = JSVal.numV 500 := by
      have hA : jsOr e.code e.status = JSVal.numV 500 := by
        rw [jsOr_of_falsy _ _ (by rw [hcode]; rfl), hstat]; rfl
      rw [hA, jsOr_of_truthy _ _ (by decide)]; rfl
    have hE : jsOr e.code e.respDataErrorCode = valueOf e.respDataErrorCode :=
      jsOr_of_falsy _ _ (by rw [hcode]; rfl)
    have hE1 : jsStrictEq (jsOr e.code e.respDataErrorCode)
        (JSVal.strV "UNAUTHENTICATED") = false := by
      rw [hE, jsStrictEq_valueOf_left]; exact jsStrictEq_strV_ne _ _ hr1
    have hE2 : jsStrictEq (jsOr e.code e.respDataErrorCode)
        (JSVal.strV "PERMISSION_DENIED") = false := by
      rw [hE, jsStrictEq_valueOf_left]; exact jsStrictEq_strV_ne _ _ hr2
    have hScond1 : jsStrictEq (JSVal.numV 500) (JSVal.numV 401) = false := by decide
    have hScond2 : jsStrictEq (JSVal.numV 500) (JSVal.numV 403) = false := by decide
    simp [isAuthError, hS, hScond1, hScond2, h1, h2, h3, h4, h5, hE1, hE2]

/-- C3 witness: the three amended clauses at concrete errors — a bare 401 on
`status` under a falsy `code`, a mixed-case `Invalid_GRANT` message on a 500,
and a clean 500. -/
theorem isAuthError_classification_witness :
    isAuthError ⟨JSVal.absent, JSVal.numV 401, some "boom", JSVal.absent,
      JSVal.absent⟩ = true ∧
    isAuthError ⟨JSVal.absent, JSVal.numV 500, some "Invalid_GRANT happened",
      JSVal.absent, JSVal.absent⟩ = true ∧
    isAuthError ⟨JSVal.absent, JSVal.numV 500, some "backend unavailable",
      JSVal.absent, JSVal.absent⟩ = false :=
  ⟨isAuthError_classification.1
      ⟨JSVal.absent, JSVal.numV 401, some "boom", JSVal.absent, JSVal.absent⟩
      (Or.inr (Or.inr (Or.inl ⟨by decide, Or.inl rfl⟩))),
    isAuthError_classification.2.1
      ⟨JSVal.absent, JSVal.numV 500, some "Invalid_GRANT happened", JSVal.absent,
        JSVal.absent⟩
      "Invalid_GRANT happened" rfl (by decide),
    isAuthError_classification.2.2
      ⟨JSVal.absent, JSVal.numV 500, some "backend unavailable", JSVal.absent,
        JSVal.absent⟩
      rfl rfl (by decide) (by decide) (by decide) (by decide) (by decide)
      (by decide) (by decide)⟩

/-- C2: with the source's entry budget of one retry, an operation whose every
attempt fails with a classified auth error is invoked at most twice and the
repair path runs at most once, and whenever the repair path completes, the
error propagated is the retried call's own; a first failure that is not an
auth error is propagated unchanged with exactly one invocation and no
repair. -/
theorem withAuthRetry_retry_bound :
    (∀ {α : Type} (op : Nat → Except JSError α) (repair : Except JSError Unit)
      (e0 e1 : JSError),
      op 0 = Except.error e0 → isAuthError e0 = true →
      op 1 = Except.error e1 → isAuthError e1 = true →
      (withAuthRetry op repair 1 0).2.1 ≤ 2 ∧
      (withAuthRetry op repair 1 0).2.2 ≤ 1 ∧
      (repair = Except.ok () → (withAuthRetry op repair 1 0).1 = Except.error e1)) ∧
    (∀ {α : Type} (op : Nat → Except JSError α) (repair : Except JSError Unit)
      (e : JSError),
      op 0 = Except.error e → isAuthError e = false →
      withAuthRetry op repair 1 0 = (Except.error e, 1, 0)) := by
  constructor
  · intro α op repair e0 e1 h0 ha0 h1 ha1
    have estep : withAuthRetry op repair 0 1 = (Except.error e1, 1, 0) := by
      unfold withAuthRetry
      rw [h1]
      simp [ha1]
    cases repair with
    | error re =>
      have hmain : withAuthRetry op (Except.error re) 1 0 = (Except.error re, 1, 1) := by
        unfold withAuthRetry
        rw [h0]
        simp [ha0]
      refine ⟨by rw [hmain]; exact one_le_two, by rw [hmain], fun hok => ?_⟩
      exact absurd hok (by simp)
    | ok u =>
      cases u
      have hmain : withAuthRetry op (Except.ok ()) 1 0 = (Except.error e1, 2, 1) := by
        unfold withAuthRetry
        rw [h0]
        simp [ha0, estep]
      exact ⟨by rw [hmain], by rw [hmain], fun _ => by rw [hmain]⟩
  · intro α op repair e h0 hna
    unfold withAuthRetry
    rw [h0]
    simp [hna]

/-- C2 witness: a concrete operation failing twice with 401s, whose repair
succeeds, and a concrete operation failing once with a plain 500. -/
theorem withAuthRetry_retry_bound_witness :
    ((withAuthRetry
        (fun i => Except.error (⟨JSVal.numV 401, JSVal.absent,
          some ("auth failed on attempt " ++ toString i), JSVal.absent, JSVal.absent⟩ :
            JSError) : Nat → Except JSError Unit)
        (Except.ok ()) 1 0).2.1 ≤ 2 ∧
      (withAuthRetry
        (fun i => Except.error (⟨JSVal.numV 401, JSVal.absent,
          some ("auth failed on attempt " ++ toString i), JSVal.absent, JSVal.absent⟩ :
            JSError) : Nat → Except JSError Unit)
        (Except.ok ()) 1 0).2.2 ≤ 1 ∧
      (withAuthRetry
        (fun i => Except.error (⟨JSVal.numV 401, JSVal.absent,
          some ("auth failed on attempt " ++ toString i), JSVal.absent, JSVal.absent⟩ :
            JSError) : Nat → Except JSError Unit)
        (Except.ok ()) 1 0).1
        = Except.error ⟨JSVal.numV 401, JSVal.absent, some "auth failed on attempt 1",
            JSVal.absent, JSVal.absent⟩) ∧
    withAuthRetry
        (fun _ => Except.error (⟨JSVal.absent, JSVal.numV 500, some "backend unavailable",
          JSVal.absent, JSVal.absent⟩ : JSError) : Nat → Except JSError Unit)
        (Except.ok ()) 1 0
      = (Except.error ⟨JSVal.absent, JSVal.numV 500, some "backend unavailable",
          JSVal.absent, JSVal.absent⟩, 1, 0) := by
  constructor
  · have h := withAuthRetry_retry_bound.1
      (fun i => Except.error (⟨JSVal.numV 401, JSVal.absent,
        some ("auth failed on attempt " ++ toString i), JSVal.absent, JSVal.absent⟩ :
          JSError) : Nat → Except JSError Unit)
      (Except.ok ())
      ⟨JSVal.numV 401, JSVal.absent, some "auth failed on attempt 0", JSVal.absent,
        JSVal.absent⟩
      ⟨JSVal.numV 401, JSVal.absent, some "auth failed on attempt 1", JSVal.absent,
        JSVal.absent⟩
      rfl (by decide) rfl (by decide)
    exact ⟨h.1, h.2.1, h.2.2 rfl⟩
  · exact withAuthRetry_retry_bound.2
      (fun _ => Except.error (⟨JSVal.absent, JSVal.numV 500, some "backend unavailable",
        JSVal.absent, JSVal.absent⟩ : JSError) : Nat → Except JSError Unit)
      (Except.ok ())
      ⟨JSVal.absent, JSVal.numV 500, some "backend unavailable", JSVal.absent, JSVal.absent⟩
      rfl (by decide)

/-- C4: invoking a registered operation whose arguments omit (or bind to
null/undefined) at least one declared required parameter fails with the
validation error naming the first missing parameter and the tool, and the
dispatch never reaches the remote capability (`executed`). -/
theorem dispatch_missing_required_param (name : String) (args : List (String × JSVal))
    (epName : String) (ep : EndpointDef) (hname : name ≠ "reauthorize")
    (hlook1 : List.lookup name toolNameToEndpoint = some epName)
    (hlook2 : List.lookup epName taskApiEndpoints = some ep)
    (hex : ∃ q ∈ ep.requiredParams,
      isMissingIn (args.filter (fun kv => kv.1 ≠ "body")) q = true) :
    ∃ p, dispatch name args = DispatchResult.missingParam p name ∧
      List.find? (fun q => isMissingIn (args.filter (fun kv => kv.1 ≠ "body")) q)
        ep.requiredParams = some p ∧
      ∀ s ps b, dispatch name args ≠ DispatchResult.executed s ps b := by
  have hsome : (List.find? (fun q => isMissingIn (args.filter (fun kv => kv.1 ≠ "body")) q)
      ep.requiredParams).isSome := by
    rw [List.find?_isSome]
    exact hex
  obtain ⟨p, hp⟩ := Option.isSome_iff_exists.mp hsome
  have hd : dispatch name args = DispatchResult.missingParam p name := by
    simp only [dispatch, if_neg hname, hlook1, hlook2, hp]
  exact ⟨p, hd, hp, fun s ps b => by rw [hd]; simp⟩

/-- C4 witness: calling `tasks-get` with only `tasklist` bound fails naming
the missing `task` parameter. -/
theorem dispatch_missing_required_param_witness :
    ∃ p, dispatch "tasks-get" [("tasklist", JSVal.strV "@default")]
        = DispatchResult.missingParam p "tasks-get" ∧
      List.find?
        (fun q => isMissingIn
          ([("tasklist", JSVal.strV "@default")].filter (fun kv => kv.1 ≠ "body")) q)
        (["tasklist", "task"] : List String) = some p ∧
      ∀ s ps b, dispatch "tasks-get" [("tasklist", JSVal.strV "@default")]
        ≠ DispatchResult.executed s ps b :=
  dispatch_missing_required_param "tasks-get" [("tasklist", JSVal.strV "@default")]
    "tasks.get"
    ⟨"Get a task by id (tasks.tasks.get)", ["tasklist", "task"], false⟩
    (by decide) rfl rfl ⟨"task", by decide, by decide⟩

/-- C6: a tool name that is neither `"reauthorize"` nor the normalized name
of a registered endpoint fails with the NotFound-style thrown error and never
reaches the remote capability, while `"reauthorize"` is always accepted,
whatever the arguments. -/
theorem dispatch_unknown_tool :
    (∀ (name : String) (args : List (String × JSVal)), name ≠ "reauthorize" →
      List.lookup name toolNameToEndpoint = none →
      dispatch name args = DispatchResult.toolNotFound ∧
      ∀ s ps b, dispatch name args ≠ DispatchResult.executed s ps b) ∧
    (∀ args : List (String × JSVal),
      dispatch "reauthorize" args = DispatchResult.reauthorized) := by
  constructor
  · intro name args hname hlook
    have hd : dispatch name args = DispatchResult.toolNotFound := by
      simp only [dispatch, if_neg hname, hlook]
    exact ⟨hd, fun s ps b => by rw [hd]; simp⟩
  · intro args
    simp [dispatch]

/-- C6 witness: the unregistered name `"frobnicate"` is rejected and
`"reauthorize"` is accepted even with arguments supplied. -/
theorem dispatch_unknown_tool_witness :
    (dispatch "frobnicate" [] = DispatchResult.toolNotFound ∧
      ∀ s ps b, dispatch "frobnicate" [] ≠ DispatchResult.executed s ps b) ∧
    dispatch "reauthorize" [("junk", JSVal.strV "x")] = DispatchResult.reauthorized :=
  ⟨dispatch_unknown_tool.1 "frobnicate" [] (by decide) (by decide),
    dispatch_unknown_tool.2 [("junk", JSVal.strV "x")]⟩

/-- C5: `refresh()` returns false immediately with no refresh attempt when
the current credential has no (truthy) refresh token; on a successful refresh
call it persists a merged credential whose `refresh_token` equals the
pre-refresh token and returns true; on a failed refresh call it logs and
returns false without raising. -/
theorem refreshAccessTokenIfPossible_behavior :
    (∀ env : RefreshEnv, truthy env.current.refresh_token = false →
      refreshAccessTokenIfPossible env = RefreshOutcome.noToken ∧
      (refreshAccessTokenIfPossible env).returnValue = false) ∧
    (∀ (env : RefreshEnv) (refreshed : Credential),
      truthy env.current.refresh_token = true →
      env.refreshCall = Except.ok refreshed →
      ∃ saved, refreshAccessTokenIfPossible env = RefreshOutcome.refreshedOk saved ∧
        saved.refresh_token = valueOf env.current.refresh_token ∧
        (refreshAccessTokenIfPossible env).returnValue = true) ∧
    (∀ (env : RefreshEnv) (e : JSError),
      truthy env.current.refresh_token = true →
      env.refreshCall = Except.error e →
      refreshAccessTokenIfPossible env = RefreshOutcome.refreshFailed e ∧
      (refreshAccessTokenIfPossible env).returnValue = false) := by
  refine ⟨?_, ?_, ?_⟩
  · intro env h
    have hd : refreshAccessTokenIfPossible env = RefreshOutcome.noToken := by
      simp [refreshAccessTokenIfPossible, truthy_valueOf, h]
    exact ⟨hd, by rw [hd]; rfl⟩
  · intro env refreshed h hcall
    have hd : refreshAccessTokenIfPossible env
        = RefreshOutcome.refreshedOk (saveCredentials env.stored
            { spreadCred env.current refreshed with
              refresh_token := valueOf env.current.refresh_token }) := by
      simp [refreshAccessTokenIfPossible, truthy_valueOf, h, hcall]
    refine ⟨_, hd, ?_, by rw [hd]; rfl⟩
    simp [saveCredentials, jsOr, truthy_valueOf, h, valueOf_valueOf]
  · intro env e h hcall
    have hd : refreshAccessTokenIfPossible env = RefreshOutcome.refreshFailed e := by
      simp [refreshAccessTokenIfPossible, truthy_valueOf, h, hcall]
    exact ⟨hd, by rw [hd]; rfl⟩

/-- C5 witness: the three branches at concrete environments — a credential
without a refresh token, a successful refresh that keeps the token `"r1"`,
and a failing refresh call. -/
theorem refreshAccessTokenIfPossible_behavior_witness :
    (refreshAccessTokenIfPossible
        ⟨⟨JSVal.strV "a1", JSVal.absent, JSVal.absent, JSVal.absent, JSVal.absent,
          JSVal.absent⟩, FileState.missing,
          Except.ok emptyCredential⟩ = RefreshOutcome.noToken) ∧
    (∃ saved, refreshAccessTokenIfPossible
        ⟨⟨JSVal.strV "a1", JSVal.strV "r1", JSVal.absent, JSVal.absent, JSVal.absent,
          JSVal.absent⟩, FileState.missing,
          Except.ok ⟨JSVal.strV "a2", JSVal.absent, JSVal.absent, JSVal.absent,
            JSVal.absent, JSVal.absent⟩⟩ = RefreshOutcome.refreshedOk saved ∧
      saved.refresh_token = valueOf (JSVal.strV "r1") ∧
      (refreshAccessTokenIfPossible
        ⟨⟨JSVal.strV "a1", JSVal.strV "r1", JSVal.absent, JSVal.absent, JSVal.absent,
          JSVal.absent⟩, FileState.missing,
          Except.ok ⟨JSVal.strV "a2", JSVal.absent, JSVal.absent, JSVal.absent,
            JSVal.absent, JSVal.absent⟩⟩).returnValue = true) ∧
    (refreshAccessTokenIfPossible
        ⟨⟨JSVal.strV "a1", JSVal.strV "r1", JSVal.absent, JSVal.absent, JSVal.absent,
          JSVal.absent⟩, FileState.missing,
          Except.error ⟨JSVal.numV 400, JSVal.absent, some "invalid_grant", JSVal.absent,
            JSVal.absent⟩⟩
      = RefreshOutcome.refreshFailed
          ⟨JSVal.numV 400, JSVal.absent, some "invalid_grant", JSVal.absent,
            JSVal.absent⟩) :=
  ⟨(refreshAccessTokenIfPossible_behavior.1
      ⟨⟨JSVal.strV "a1", JSVal.absent, JSVal.absent, JSVal.absent, JSVal.absent,
        JSVal.absent⟩, FileState.missing, Except.ok emptyCredential⟩ (by decide)).1,
    refreshAccessTokenIfPossible_behavior.2.1
      ⟨⟨JSVal.strV "a1", JSVal.strV "r1", JSVal.absent, JSVal.absent, JSVal.absent,
        JSVal.absent⟩, FileState.missing,
        Except.ok ⟨JSVal.strV "a2", JSVal.absent, JSVal.absent, JSVal.absent,
          JSVal.absent, JSVal.absent⟩⟩
      ⟨JSVal.strV "a2", JSVal.absent, JSVal.absent, JSVal.absent, JSVal.absent,
        JSVal.absent⟩
      (by decide) rfl,
    (refreshAccessTokenIfPossible_behavior.2.2
      ⟨⟨JSVal.strV "a1", JSVal.strV "r1", JSVal.absent, JSVal.absent, JSVal.absent,
        JSVal.absent⟩, FileState.missing,
        Except.error ⟨JSVal.numV 400, JSVal.absent, some "invalid_grant", JSVal.absent,
          JSVal.absent⟩⟩
      ⟨JSVal.numV 400, JSVal.absent, some "invalid_grant", JSVal.absent, JSVal.absent⟩
      (by decide) rfl).1⟩

/-- C8 counterexample: `TaskResources.list` is a bulk cross-list read, yet a
non-auth `RemoteError` on the second sub-list aborts the whole operation with
that error instead of returning the items fetched from the first sub-list. -/
theorem resourcesList_claim_false :
    resourcesList
        [⟨JSVal.strV "listA",
            Except.ok ⟨some [[("id", JSVal.strV "t1"), ("title", JSVal.strV "Task one")]],
              JSVal.absent⟩⟩,
          ⟨JSVal.strV "listB",
            Except.error ⟨JSVal.absent, JSVal.numV 500, some "backend unavailable",
              JSVal.absent, JSVal.absent⟩⟩]
      = Except.error ⟨JSVal.absent, JSVal.numV 500, some "backend unavailable",
          JSVal.absent, JSVal.absent⟩ ∧
    isAuthError ⟨JSVal.absent, JSVal.numV 500, some "backend unavailable", JSVal.absent,
      JSVal.absent⟩ = false :=
  ⟨rfl, by decide⟩

/-- C8 (amended): in the tool-side bulk cross-list read (`TaskActions._list`),
a sub-list whose remote call fails with a non-auth `RemoteError` is caught,
logged, and skipped, and the operation returns exactly what it returns
without that sub-list; the resource-side bulk read (`TaskResources.list`) has
no such catch and propagates the failure (see the counterexample). -/
theorem listAcrossLists_skips_failed (pre post : List SubListFetch)
    (bad : SubListFetch) (e : JSError) (status : JSVal)
    (filters : Option (List (String × JSVal)))
    (hbad : bad.fetched = Except.error e) (_hna : isAuthError e = false) :
    listAcrossLists (pre ++ bad :: post) status filters
      = listAcrossLists (pre ++ post) status filters := by
  unfold listAcrossLists
  rw [List.foldl_append, List.foldl_append, List.foldl_cons]
  have hstep : ∀ acc : List TaskObj,
      (if truthy bad.id then
        match bad.fetched with
        | Except.ok d =>
          acc ++ (d.items.getD []).filter
            (fun t => matchesStatus t status && matchesFilters t filters)
        | Except.error _ => acc
      else acc) = acc := by
    intro acc
    rw [hbad]
    simp
  rw [hstep]

/-- C8 witness: with a concrete failing middle sub-list between two
successful ones, the accumulated result equals the one computed from the two
successful sub-lists alone. -/
theorem listAcrossLists_skips_failed_witness :
    listAcrossLists
        [⟨JSVal.strV "listA",
            Except.ok ⟨some [[("id", JSVal.strV "t1"), ("status", JSVal.strV "needsAction")]],
              JSVal.absent⟩⟩,
          ⟨JSVal.strV "listB",
            Except.error ⟨JSVal.absent, JSVal.numV 503, some "quota exceeded",
              JSVal.absent, JSVal.absent⟩⟩,
          ⟨JSVal.strV "listC",
            Except.ok ⟨some [[("id", JSVal.strV "t2"), ("status", JSVal.strV "needsAction")]],
              JSVal.absent⟩⟩]
        JSVal.undef none
      = listAcrossLists
          [⟨JSVal.strV "listA",
              Except.ok ⟨some [[("id", JSVal.strV "t1"), ("status", JSVal.strV "needsAction")]],
                JSVal.absent⟩⟩,
            ⟨JSVal.strV "listC",
              Except.ok ⟨some [[("id", JSVal.strV "t2"), ("status", JSVal.strV "needsAction")]],
                JSVal.absent⟩⟩]
          JSVal.undef none :=
  listAcrossLists_skips_failed
    [⟨JSVal.strV "listA",
        Except.ok ⟨some [[("id", JSVal.strV "t1"), ("status", JSVal.strV "needsAction")]],
          JSVal.absent⟩⟩]
    [⟨JSVal.strV "listC",
        Except.ok ⟨some [[("id", JSVal.strV "t2"), ("status", JSVal.strV "needsAction")]],
          JSVal.absent⟩⟩]
    ⟨JSVal.strV "listB",
      Except.error ⟨JSVal.absent, JSVal.numV 503, some "quota exceeded", JSVal.absent,
        JSVal.absent⟩⟩
    ⟨JSVal.absent, JSVal.numV 503, some "quota exceeded", JSVal.absent, JSVal.absent⟩
    JSVal.undef none rfl (by decide)

end GTasksSpec
